import Mathlib

/-!
Shallow embedding of the S3FileUploadLib Go library (package s3lib).

The library is a thin wrapper over the AWS SDK. The SDK itself is external;
it is modelled as an oracle (`SDK`): a record of functions giving the result
of each delegated call. Every client operation is translated as a pure
function of its inputs and the oracle; alongside its Go return values it
returns the list of delegated SDK calls it issued, in order, so that
"returned locally, no network call" and "probe before transfer" facts are
statements about that trace.

Go `error` values are embedded as the inductive `GoErr`: `errors.New`
sentinels, `awserr.Error` values carrying a structured code, other plain
errors, and `fmt.Errorf("...: %w", err)` wrapping that preserves the cause.
`nil`-able Go pointers and the AWS SDK's pointer-typed output fields are
embedded as `Option`, with the `aws.StringValue` / `aws.Int64Value` /
`aws.TimeValue` nil-defaulting helpers reproduced.
-/

namespace S3Lib

/-- Embedding of Go `error` values as used in this library: sentinel errors
from `errors.New`, AWS SDK errors with a structured code (`awserr.Error`),
other plain errors, and `fmt.Errorf` wrapping with `%w` (cause preserved). -/
inductive GoErr where
  | sentinel (msg : String)
  | aws (code : String) (msg : String)
  | plain (msg : String)
  | wrap (prefixMsg : String) (cause : GoErr)
deriving DecidableEq, Repr

/-- Go `errors.Is`: walks the `%w` unwrap chain looking for the target. -/
def GoErr.is (e target : GoErr) : Bool :=
  if e = target then true
  else
    match e with
    | .wrap _ cause => cause.is target
    | _ => false

/-- `errors.go`: ErrInvalidConfig. -/
def ErrInvalidConfig : GoErr := .sentinel "invalid configuration"

/-- `errors.go`: ErrInvalidBucket. -/
def ErrInvalidBucket : GoErr := .sentinel "invalid bucket name"

/-- `errors.go`: ErrInvalidKey. -/
def ErrInvalidKey : GoErr := .sentinel "invalid key"

/-- `errors.go`: ErrFileNotFound. -/
def ErrFileNotFound : GoErr := .sentinel "file not found"

/-- The AWS SDK constant `s3.ErrCodeNoSuchBucket`. -/
def ErrCodeNoSuchBucket : String := "NoSuchBucket"

/-- An error returned by a delegated SDK call: either an `awserr.Error`
(with a structured code, as tested by the `err.(awserr.Error)` type
assertion in the Go code) or any other error. -/
inductive SDKError where
  | aws (code : String) (msg : String)
  | plain (msg : String)
deriving DecidableEq, Repr

/-- View an SDK error as the Go error value it is (the `err` that gets
wrapped by `fmt.Errorf("...: %w", err)`). -/
def SDKError.toGoErr : SDKError → GoErr
  | .aws code msg => .aws code msg
  | .plain msg => .plain msg

/-- `config.go`: the Config struct. `time.Duration` is embedded as `Nat`. -/
structure Config where
  Region : String
  AccessKey : String
  SecretKey : String
  Duration : Nat
  Endpoint : String
  UseSSL : Bool
  Debug : Bool
deriving DecidableEq, Repr

/-- `config.go` `Config.Validate`: returns `ErrInvalidConfig` when region,
access key, or secret key is empty; `none` embeds Go's `nil` error. -/
def Config.Validate (c : Config) : Option GoErr :=
  if c.Region = "" then some ErrInvalidConfig
  else if c.AccessKey = "" then some ErrInvalidConfig
  else if c.SecretKey = "" then some ErrInvalidConfig
  else none

/-- The `aws.Config` value built by `NewS3Client`: region, static
credentials, and (only when an endpoint override is set) the endpoint and
forced path-style addressing. -/
structure AwsConfig where
  Region : String
  AccessKeyID : String
  SecretAccessKey : String
  Endpoint : Option String
  S3ForcePathStyle : Option Bool
deriving DecidableEq, Repr

/-- `s3lib.go`: the S3Client struct. The three SDK handles (`*s3.S3`,
`*session.Session`, `*s3manager.Uploader`) are opaque external references;
only their nil-ness is observable in this library, so each is `Option Unit`. -/
structure S3Client where
  s3Client : Option Unit
  session : Option Unit
  uploader : Option Unit
  config : Config
  debugMode : Bool
deriving DecidableEq, Repr

/-- `s3lib.go`: FileInfo. `time.Time` is embedded as `Nat`, `int64` as `Int`. -/
structure FileInfo where
  Key : String
  Size : Int
  LastModified : Nat
  ETag : String
  StorageClass : String
deriving DecidableEq, Repr

/-- `s3lib.go`: UploadOptions. `map[string]string` is embedded as an
association list, `nil`-able as `Option`. -/
structure UploadOptions where
  ContentType : String
  ContentDisposition : String
  CacheControl : String
  Metadata : Option (List (String × String))
  StorageClass : String
  ACL : String
deriving DecidableEq, Repr

/-- The `s3manager.UploadInput` built by `UploadFile`: pointer fields that
are only set for populated options are `Option`. The byte payload is a list
of bytes (`Nat` values). -/
structure UploadInput where
  Bucket : String
  Key : String
  Body : List Nat
  ContentType : Option String
  ContentDisposition : Option String
  CacheControl : Option String
  Metadata : Option (List (String × String))
  StorageClass : Option String
  ACL : Option String
deriving DecidableEq, Repr

/-- The `s3.ListObjectsV2Input` built by `ListFiles`: `Prefix` is only set
when the prefix argument is non-empty. -/
structure ListObjectsV2Input where
  Bucket : String
  Prefix : Option String
deriving DecidableEq, Repr

/-- One object record of a `s3.ListObjectsV2Output` page; every field is a
pointer in the SDK, hence `Option`. -/
structure S3Object where
  Key : Option String
  Size : Option Int
  LastModified : Option Nat
  ETag : Option String
  StorageClass : Option String
deriving DecidableEq, Repr

/-- The `s3.HeadObjectOutput` fields read by `GetFileInfo`. -/
structure HeadObjectOutput where
  ContentLength : Option Int
  LastModified : Option Nat
  ETag : Option String
  StorageClass : Option String
deriving DecidableEq, Repr

/-- The `s3manager.UploadOutput` field read by `UploadFile`. -/
structure UploadOutput where
  Location : String
deriving DecidableEq, Repr

/-- `aws.StringValue`: dereference a `*string`, empty when nil. -/
def stringValue (s : Option String) : String := s.getD ""

/-- `aws.Int64Value`: dereference a `*int64`, zero when nil. -/
def int64Value (n : Option Int) : Int := n.getD 0

/-- `aws.TimeValue`: dereference a `*time.Time`, zero time when nil. -/
def timeValue (t : Option Nat) : Nat := t.getD 0

/-- A delegated SDK call, as recorded in an operation's call trace. -/
inductive SDKCall where
  | headObject (bucket key : String)
  | getObjectDownload (bucket key : String)
  | uploadCall (input : UploadInput)
  | deleteObject (bucket key : String)
  | listObjectsV2 (input : ListObjectsV2Input)
deriving DecidableEq, Repr

/-- The external AWS SDK, modelled as an oracle: the result each delegated
call would produce. The local request signers for pre-signed URL / POST
generation are part of the SDK as well (they perform no network call). -/
structure SDK where
  headObject : String → String → Except SDKError HeadObjectOutput
  download : String → String → Except SDKError (List Nat)
  upload : UploadInput → Except SDKError UploadOutput
  deleteObject : String → String → Except SDKError Unit
  listObjectsV2Pages : ListObjectsV2Input → Except SDKError (List (List S3Object))
  presignURL : String → String → Nat → String → String
  presignPost : String → String → Nat → Nat → String × List (String × String)

/-- `s3lib.go` `NewS3Client`: validates the config (wrapping a validation
error as `invalid config: %w`), builds the `aws.Config`, creates the
session (failure wrapped as `failed to create session: %w`), then returns
the populated client handle. Session creation is delegated, so it is passed
in as `newSession`. -/
def NewS3Client (cfg : Config) (newSession : AwsConfig → Except String Unit) :
    Except GoErr S3Client :=
  match cfg.Validate with
  | some e => .error (.wrap "invalid config" e)
  | none =>
    let awsCfg : AwsConfig :=
      { Region := cfg.Region
        AccessKeyID := cfg.AccessKey
        SecretAccessKey := cfg.SecretKey
        Endpoint := if cfg.Endpoint ≠ "" then some cfg.Endpoint else none
        S3ForcePathStyle := if cfg.Endpoint ≠ "" then some true else none }
    match newSession awsCfg with
    | .error msg => .error (.wrap "failed to create session" (.plain msg))
    | .ok _ =>
      .ok { s3Client := some ()
            session := some ()
            uploader := some ()
            config := cfg
            debugMode := cfg.Debug }

/-- The loop body of `ListFiles`'s pagination callback: one `FileInfo`
record per listed object, each field dereferenced with the `aws.*Value`
helpers. -/
def objectToFileInfo (obj : S3Object) : FileInfo :=
  { Key := stringValue obj.Key
    Size := int64Value obj.Size
    LastModified := timeValue obj.LastModified
    ETag := stringValue obj.ETag
    StorageClass := stringValue obj.StorageClass }

/-- `s3lib.go` `ListFiles`: empty-bucket check, then one paginated listing
call whose callback always returns true (visits every page) and appends
each page's objects in order; error mapping per the `awserr` switch. -/
def ListFiles (c : S3Client) (sdk : SDK) (bucket pfx : String) :
    Except GoErr (List FileInfo) × List SDKCall :=
  if bucket = "" then (.error ErrInvalidBucket, [])
  else
    let input : ListObjectsV2Input :=
      { Bucket := bucket, Prefix := if pfx ≠ "" then some pfx else none }
    match sdk.listObjectsV2Pages input with
    | .error e =>
      (match e with
       | .aws code msg =>
         if code = ErrCodeNoSuchBucket then .error ErrInvalidBucket
         else .error (.wrap "AWS error" (.aws code msg))
       | .plain msg => .error (.wrap "failed to list objects" (.plain msg)),
       [.listObjectsV2 input])
    | .ok pages => (.ok (pages.flatten.map objectToFileInfo), [.listObjectsV2 input])

/-- The option-application block of `UploadFile`: each populated option
field is set on the outgoing `UploadInput`; absent/empty fields are left
unset. -/
def buildUploadInput (bucket filename : String) (data : List Nat)
    (opts : Option UploadOptions) : UploadInput :=
  let base : UploadInput :=
    { Bucket := bucket, Key := filename, Body := data
      ContentType := none, ContentDisposition := none, CacheControl := none
      Metadata := none, StorageClass := none, ACL := none }
  match opts with
  | none => base
  | some o =>
    let i := if o.ContentType ≠ "" then { base with ContentType := some o.ContentType } else base
    let i := if o.ContentDisposition ≠ "" then { i with ContentDisposition := some o.ContentDisposition } else i
    let i := if o.CacheControl ≠ "" then { i with CacheControl := some o.CacheControl } else i
    let i := match o.Metadata with
             | some m => { i with Metadata := some m }
             | none => i
    let i := if o.StorageClass ≠ "" then { i with StorageClass := some o.StorageClass } else i
    if o.ACL ≠ "" then { i with ACL := some o.ACL } else i

/-- `s3lib.go` `UploadFile`: empty-bucket then empty-filename checks, input
construction from the options, one delegated upload call, error mapping per
the `awserr` switch, and the result location on success. -/
def UploadFile (c : S3Client) (sdk : SDK) (bucket filename : String)
    (data : List Nat) (opts : Option UploadOptions) :
    Except GoErr String × List SDKCall :=
  if bucket = "" then (.error ErrInvalidBucket, [])
  else if filename = "" then (.error ErrInvalidKey, [])
  else
    let input := buildUploadInput bucket filename data opts
    match sdk.upload input with
    | .error e =>
      (match e with
       | .aws code msg =>
         if code = ErrCodeNoSuchBucket then .error ErrInvalidBucket
         else .error (.wrap "AWS error" (.aws code msg))
       | .plain msg => .error (.wrap "failed to upload file" (.plain msg)),
       [.uploadCall input])
    | .ok out => (.ok out.Location, [.uploadCall input])

/-- `s3lib.go` `DownloadFile`: empty-bucket then empty-key checks, a
HeadObject existence probe ("NotFound" → ErrFileNotFound, NoSuchBucket →
ErrInvalidBucket, other errors wrapped), and only after a successful probe
the download into an in-memory buffer whose bytes are returned. -/
def DownloadFile (c : S3Client) (sdk : SDK) (bucket key : String) :
    Except GoErr (List Nat) × List SDKCall :=
  if bucket = "" then (.error ErrInvalidBucket, [])
  else if key = "" then (.error ErrInvalidKey, [])
  else
    match sdk.headObject bucket key with
    | .error e =>
      (match e with
       | .aws code msg =>
         if code = "NotFound" then .error ErrFileNotFound
         else if code = ErrCodeNoSuchBucket then .error ErrInvalidBucket
         else .error (.wrap "AWS error" (.aws code msg))
       | .plain msg => .error (.wrap "failed to get object info" (.plain msg)),
       [.headObject bucket key])
    | .ok _ =>
      match sdk.download bucket key with
      | .error e =>
        (.error (.wrap "failed to download file" e.toGoErr),
         [.headObject bucket key, .getObjectDownload bucket key])
      | .ok bytes =>
        (.ok bytes, [.headObject bucket key, .getObjectDownload bucket key])

/-- `s3lib.go` `DeleteFile`: empty-bucket then empty-key checks, one
delegated deletion call, error mapping per the `awserr` switch. -/
def DeleteFile (c : S3Client) (sdk : SDK) (bucket key : String) :
    Except GoErr Unit × List SDKCall :=
  if bucket = "" then (.error ErrInvalidBucket, [])
  else if key = "" then (.error ErrInvalidKey, [])
  else
    match sdk.deleteObject bucket key with
    | .error e =>
      (match e with
       | .aws code msg =>
         if code = ErrCodeNoSuchBucket then .error ErrInvalidBucket
         else .error (.wrap "AWS error" (.aws code msg))
       | .plain msg => .error (.wrap "failed to delete file" (.plain msg)),
       [.deleteObject bucket key])
    | .ok _ => (.ok (), [.deleteObject bucket key])

/-- `s3lib.go` `GetFileInfo`: empty-bucket then empty-key checks, one
metadata-only HeadObject call; "NotFound" → ErrFileNotFound, NoSuchBucket →
ErrInvalidBucket, other errors wrapped; on success a FileInfo whose Key is
the input key and whose remaining fields come from the response. -/
def GetFileInfo (c : S3Client) (sdk : SDK) (bucket key : String) :
    Except GoErr FileInfo × List SDKCall :=
  if bucket = "" then (.error ErrInvalidBucket, [])
  else if key = "" then (.error ErrInvalidKey, [])
  else
    match sdk.headObject bucket key with
    | .error e =>
      (match e with
       | .aws code msg =>
         if code = "NotFound" then .error ErrFileNotFound
         else if code = ErrCodeNoSuchBucket then .error ErrInvalidBucket
         else .error (.wrap "AWS error" (.aws code msg))
       | .plain msg => .error (.wrap "failed to get file info" (.plain msg)),
       [.headObject bucket key])
    | .ok r =>
      (.ok { Key := key
             Size := int64Value r.ContentLength
             LastModified := timeValue r.LastModified
             ETag := stringValue r.ETag
             StorageClass := stringValue r.StorageClass },
       [.headObject bucket key])

/-- `s3lib.go` `Close`: nil-receiver no-op; otherwise drops the session,
client, and uploader references (each only when still set), prints a
cleanup trace when debug mode is on, and returns a nil error. The result is
the receiver's state afterwards, the printed lines, and the returned error. -/
def Close (c : Option S3Client) :
    Option S3Client × List String × Except GoErr Unit :=
  match c with
  | none => (none, [], .ok ())
  | some cl =>
    let cl1 := if cl.session.isSome then { cl with session := none } else cl
    let cl2 := if cl1.s3Client.isSome then { cl1 with s3Client := none } else cl1
    let cl3 := if cl2.uploader.isSome then { cl2 with uploader := none } else cl2
    let out := if cl3.debugMode then ["S3 client resources cleaned up"] else []
    (some cl3, out, .ok ())

/-- Modelled from the spec: the pre-signed URL generation operation
(`GeneratePresignedURL` in the README, `PresignURL` in the spec) is not
present under `src/`. Per spec section 4.7 it takes bucket, key, validity
duration and an upload-or-download mode, and produces a time-limited
credential-embedded URL by a purely local signing operation delegated to
the SDK, contacting no service — hence the empty call trace. -/
def GeneratePresignedURL (c : S3Client) (sdk : SDK) (bucket key : String)
    (duration : Nat) (mode : String) : String × List SDKCall :=
  (sdk.presignURL bucket key duration mode, [])

/-- Modelled from the spec: the pre-signed POST generation operation
(`GeneratePresignedPost` in the README, `PresignPOST` in the spec) is not
present under `src/`. Per spec section 4.7 it takes bucket, key, validity
duration and a maximum payload size, and produces a URL plus a mapping of
form fields by a purely local signing operation delegated to the SDK,
contacting no service — hence the empty call trace. -/
def GeneratePresignedPost (c : S3Client) (sdk : SDK) (bucket key : String)
    (duration maxSizeBytes : Nat) :
    (String × List (String × String)) × List SDKCall :=
  (sdk.presignPost bucket key duration maxSizeBytes, [])

/-- A sample configuration, used to build concrete clients for witnesses. -/
def exCfg : Config :=
  { Region := "us-west-2", AccessKey := "ak", SecretKey := "sk"
    Duration := 300, Endpoint := "", UseSSL := false, Debug := false }

/-- A freshly constructed client handle, as `NewS3Client` returns it. -/
def exClient : S3Client :=
  { s3Client := some (), session := some (), uploader := some ()
    config := exCfg, debugMode := false }

/-- A sample SDK oracle whose calls all succeed with fixed responses, used
to instantiate theorems at concrete inputs in witnesses. -/
def exSDK : SDK :=
  { headObject := fun _ _ =>
      .ok { ContentLength := some 13, LastModified := some 1700000000
            ETag := some "\x22abc\x22", StorageClass := some "STANDARD" }
    download := fun _ _ => .ok [72, 105]
    upload := fun _ => .ok { Location := "https://b.s3.amazonaws.com/k" }
    deleteObject := fun _ _ => .ok ()
    listObjectsV2Pages := fun _ => .ok []
    presignURL := fun bucket key _ _ => "https://sign/" ++ bucket ++ "/" ++ key
    presignPost := fun bucket key _ _ => ("https://post/" ++ bucket, [("key", key)]) }

/-- C1: The library exposes pre-signed URL and pre-signed POST generation:
`GeneratePresignedURL` returns the SDK signer's time-limited URL for the
given bucket, key, duration and mode, `GeneratePresignedPost` returns the
signer's URL-plus-form-fields for the given bucket, key, duration and
maximum size, and both issue no delegated service call (empty call trace):
the result is produced purely by the local signing operation. -/
theorem presign_local (c : S3Client) (sdk : SDK) (bucket key mode : String)
    (duration maxSizeBytes : Nat) :
    GeneratePresignedURL c sdk bucket key duration mode =
      (sdk.presignURL bucket key duration mode, ([] : List SDKCall)) ∧
    GeneratePresignedPost c sdk bucket key duration maxSizeBytes =
      (sdk.presignPost bucket key duration maxSizeBytes, ([] : List SDKCall)) :=
  ⟨rfl, rfl⟩

/-- C10: With both bucket and key empty, UploadFile, DownloadFile,
DeleteFile and GetFileInfo each return ErrInvalidBucket (not ErrInvalidKey)
and issue no SDK call: the bucket emptiness check precedes the key
emptiness check in every operation. -/
theorem bucket_check_precedes_key_check (c : S3Client) (sdk : SDK)
    (data : List Nat) (opts : Option UploadOptions) :
    UploadFile c sdk "" "" data opts = (.error ErrInvalidBucket, []) ∧
    DownloadFile c sdk "" "" = (.error ErrInvalidBucket, []) ∧
    DeleteFile c sdk "" "" = (.error ErrInvalidBucket, []) ∧
    GetFileInfo c sdk "" "" = (.error ErrInvalidBucket, []) := by
  refine ⟨?_, ?_, ?_, ?_⟩ <;> simp [UploadFile, DownloadFile, DeleteFile, GetFileInfo]

/-- C7: Close is total and idempotent: on a nil handle it is a no-op
returning a nil error; on any handle it returns a nil error; applying it to
the state it left behind changes nothing and still returns a nil error; and
the debug flag only selects the diagnostic trace, never the returned
result or the rest of the state. -/
theorem close_total_idempotent (c : Option S3Client) :
    Close none = (none, [], .ok ()) ∧
    (Close c).2.2 = .ok () ∧
    Close (Close c).1 = ((Close c).1, (Close (Close c).1).2.1, .ok ()) ∧
    (∀ cl : S3Client, ∀ b : Bool,
      Close (some { cl with debugMode := b }) =
        (some { cl with debugMode := b, session := none, s3Client := none, uploader := none },
         if b then ["S3 client resources cleaned up"] else [],
         .ok ())) := by
  refine ⟨rfl, ?_, ?_, ?_⟩
  · match c with
    | none => rfl
    | some cl => rfl
  · match c with
    | none => rfl
    | some cl =>
      rcases cl with ⟨s3c, sess, upl, cfg, dbg⟩
      rcases s3c with _ | ⟨⟩ <;> rcases sess with _ | ⟨⟩ <;> rcases upl with _ | ⟨⟩ <;>
        simp [Close]
  · intro cl b
    rcases cl with ⟨s3c, sess, upl, cfg, dbg⟩
    rcases s3c with _ | ⟨⟩ <;> rcases sess with _ | ⟨⟩ <;> rcases upl with _ | ⟨⟩ <;>
      simp [Close]

/-- C6 counterexample: on a freshly constructed client handle, Close does
not leave the handle's fields unchanged — it clears the s3Client, session
and uploader references — refuting the claim that every public operation,
including Close, leaves all fields of the handle unchanged. -/
theorem close_mutates_handle_cex :
    (Close (some exClient)).1 ≠ some exClient ∧
    (Close (some exClient)).1 =
      some { exClient with session := none, s3Client := none, uploader := none } := by
  constructor
  · decide
  · rfl

/-- C6 amended: all public operations except Close take the handle
read-only (they are pure functions of it in this embedding and assign no
field in the source); Close is the one mutating operation: it clears the
s3Client, session and uploader references, leaves config and debugMode
unchanged, and returns a nil error. -/
theorem close_clears_only_sdk_refs (cl : S3Client) :
    (Close (some cl)).1 =
      some { cl with session := none, s3Client := none, uploader := none } ∧
    (Close (some cl)).2.2 = .ok () := by
  rcases cl with ⟨s3c, sess, upl, cfg, dbg⟩
  rcases s3c with _ | ⟨⟩ <;> rcases sess with _ | ⟨⟩ <;> rcases upl with _ | ⟨⟩ <;>
    simp [Close]

/-- C3: Whenever the region, access key, or secret key of the configuration
is empty, NewS3Client returns the validation error — `invalid config: %w`
wrapping ErrInvalidConfig, so `errors.Is(err, ErrInvalidConfig)` holds —
and no client handle, whatever the session-creation step would do
(validation happens first, at construction time). -/
theorem new_client_rejects_invalid_config (cfg : Config)
    (newSession : AwsConfig → Except String Unit)
    (h : cfg.Region = "" ∨ cfg.AccessKey = "" ∨ cfg.SecretKey = "") :
    NewS3Client cfg newSession = .error (.wrap "invalid config" ErrInvalidConfig) ∧
    GoErr.is (.wrap "invalid config" ErrInvalidConfig) ErrInvalidConfig = true ∧
    ∀ cl, NewS3Client cfg newSession ≠ .ok cl := by
  have hv : cfg.Validate = some ErrInvalidConfig := by
    unfold Config.Validate
    rcases h with h | h | h <;> simp [h]
  refine ⟨?_, by decide, ?_⟩
  · unfold NewS3Client
    rw [hv]
  · intro cl hcl
    unfold NewS3Client at hcl
    rw [hv] at hcl
    exact Except.noConfusion hcl

/-- C3 witness: a configuration with an empty access key is rejected. -/
theorem new_client_rejects_invalid_config_witness :
    NewS3Client { exCfg with AccessKey := "" } (fun _ => .ok ()) =
      .error (.wrap "invalid config" ErrInvalidConfig) :=
  (new_client_rejects_invalid_config { exCfg with AccessKey := "" }
    (fun _ => .ok ()) (Or.inr (Or.inl rfl))).1

/-- C2: Every operation taking a bucket (UploadFile, DownloadFile,
ListFiles, DeleteFile, GetFileInfo) returns ErrInvalidBucket on an empty
bucket, and every operation taking a key (UploadFile, DownloadFile,
DeleteFile, GetFileInfo) returns ErrInvalidKey on an empty key once its
bucket check has passed; in both cases the call trace is empty: the error
is returned locally, before any delegated SDK call. -/
theorem empty_bucket_key_rejected_locally (c : S3Client) (sdk : SDK)
    (bucket key pfx : String) (data : List Nat) (opts : Option UploadOptions) :
    (bucket = "" →
      UploadFile c sdk bucket key data opts = (.error ErrInvalidBucket, []) ∧
      DownloadFile c sdk bucket key = (.error ErrInvalidBucket, []) ∧
      ListFiles c sdk bucket pfx = (.error ErrInvalidBucket, []) ∧
      DeleteFile c sdk bucket key = (.error ErrInvalidBucket, []) ∧
      GetFileInfo c sdk bucket key = (.error ErrInvalidBucket, [])) ∧
    (bucket ≠ "" → key = "" →
      UploadFile c sdk bucket key data opts = (.error ErrInvalidKey, []) ∧
      DownloadFile c sdk bucket key = (.error ErrInvalidKey, []) ∧
      DeleteFile c sdk bucket key = (.error ErrInvalidKey, []) ∧
      GetFileInfo c sdk bucket key = (.error ErrInvalidKey, [])) := by
  constructor
  · intro hb
    subst hb
    exact ⟨by simp [UploadFile], by simp [DownloadFile], by simp [ListFiles],
           by simp [DeleteFile], by simp [GetFileInfo]⟩
  · intro hb hk
    subst hk
    exact ⟨by simp [UploadFile, hb], by simp [DownloadFile, hb],
           by simp [DeleteFile, hb], by simp [GetFileInfo, hb]⟩

/-- C2 witness: UploadFile on an empty bucket returns ErrInvalidBucket with
no SDK call, and on a non-empty bucket with an empty filename returns
ErrInvalidKey with no SDK call. -/
theorem empty_bucket_key_rejected_locally_witness :
    UploadFile exClient exSDK "" "k" [] none = (.error ErrInvalidBucket, []) ∧
    UploadFile exClient exSDK "b" "" [] none = (.error ErrInvalidKey, []) :=
  ⟨((empty_bucket_key_rejected_locally exClient exSDK "" "k" "" [] none).1 rfl).1,
   ((empty_bucket_key_rejected_locally exClient exSDK "b" "" "" [] none).2
     (by decide) rfl).1⟩

/-- The unwrap chain finds an error in itself. -/
theorem goErr_is_self (g : GoErr) : g.is g = true := by
  unfold GoErr.is
  simp

/-- One `%w` wrap preserves the cause in the unwrap chain (`errors.Is`). -/
theorem goErr_is_wrap (m : String) (g : GoErr) : (GoErr.wrap m g).is g = true := by
  unfold GoErr.is
  by_cases h : GoErr.wrap m g = g
  · simp [h]
  · simp [h, goErr_is_self]

/-- C4: With non-empty bucket and key, DownloadFile first issues the
HeadObject metadata probe: a probe error coded "NotFound" returns
ErrFileNotFound, a probe error coded NoSuchBucket returns ErrInvalidBucket,
any probe error leaves the probe as the only delegated call (no transfer);
only when the probe succeeds does it perform the content transfer into the
in-memory buffer, returning the object's full byte payload. -/
theorem download_probe_then_fetch (c : S3Client) (sdk : SDK) (bucket key : String)
    (hb : bucket ≠ "") (hk : key ≠ "") :
    (∀ msg, sdk.headObject bucket key = .error (.aws "NotFound" msg) →
      DownloadFile c sdk bucket key =
        (.error ErrFileNotFound, [.headObject bucket key])) ∧
    (∀ msg, sdk.headObject bucket key = .error (.aws ErrCodeNoSuchBucket msg) →
      DownloadFile c sdk bucket key =
        (.error ErrInvalidBucket, [.headObject bucket key])) ∧
    (∀ e, sdk.headObject bucket key = .error e →
      (DownloadFile c sdk bucket key).2 = [.headObject bucket key]) ∧
    (∀ out, sdk.headObject bucket key = .ok out →
      ∀ bytes, sdk.download bucket key = .ok bytes →
        DownloadFile c sdk bucket key =
          (.ok bytes, [.headObject bucket key, .getObjectDownload bucket key])) := by
  refine ⟨?_, ?_, ?_, ?_⟩
  · intro msg h
    unfold DownloadFile
    rw [if_neg hb, if_neg hk, h]
    simp
  · intro msg h
    unfold DownloadFile
    rw [if_neg hb, if_neg hk, h]
    simp [ErrCodeNoSuchBucket]
  · intro e h
    unfold DownloadFile
    rw [if_neg hb, if_neg hk, h]
  · intro out hhead bytes hdl
    unfold DownloadFile
    rw [if_neg hb, if_neg hk, hhead, hdl]

/-- C4 witness: on an SDK whose probe reports "NotFound", DownloadFile
returns ErrFileNotFound after the probe alone. -/
theorem download_probe_then_fetch_witness :
    DownloadFile exClient
      { exSDK with headObject := fun _ _ => .error (.aws "NotFound" "no head") }
      "b" "k" = (.error ErrFileNotFound, [.headObject "b" "k"]) :=
  (download_probe_then_fetch exClient
    { exSDK with headObject := fun _ _ => .error (.aws "NotFound" "no head") }
    "b" "k" (by decide) (by decide)).1 "no head" rfl

/-- C9: With non-empty bucket and key, GetFileInfo issues only the
metadata (HeadObject) request: an error coded "NotFound" returns
ErrFileNotFound, an error coded NoSuchBucket returns ErrInvalidBucket, and
on success it returns a FileInfo whose Size, LastModified, ETag and
StorageClass come from the response and whose Key is the input key argument
echoed back. -/
theorem get_file_info_spec (c : S3Client) (sdk : SDK) (bucket key : String)
    (hb : bucket ≠ "") (hk : key ≠ "") :
    (∀ msg, sdk.headObject bucket key = .error (.aws "NotFound" msg) →
      GetFileInfo c sdk bucket key =
        (.error ErrFileNotFound, [.headObject bucket key])) ∧
    (∀ msg, sdk.headObject bucket key = .error (.aws ErrCodeNoSuchBucket msg) →
      GetFileInfo c sdk bucket key =
        (.error ErrInvalidBucket, [.headObject bucket key])) ∧
    (∀ r, sdk.headObject bucket key = .ok r →
      GetFileInfo c sdk bucket key =
        (.ok { Key := key
               Size := int64Value r.ContentLength
               LastModified := timeValue r.LastModified
               ETag := stringValue r.ETag
               StorageClass := stringValue r.StorageClass },
         [.headObject bucket key])) := by
  refine ⟨?_, ?_, ?_⟩
  · intro msg h
    unfold GetFileInfo
    rw [if_neg hb, if_neg hk, h]
    simp
  · intro msg h
    unfold GetFileInfo
    rw [if_neg hb, if_neg hk, h]
    simp [ErrCodeNoSuchBucket]
  · intro r h
    unfold GetFileInfo
    rw [if_neg hb, if_neg hk, h]

/-- C9 witness: on the sample SDK, GetFileInfo echoes the key and reads
size, last-modified, entity tag and storage class from the head response. -/
theorem get_file_info_spec_witness :
    GetFileInfo exClient exSDK "b" "k" =
      (.ok { Key := "k", Size := 13, LastModified := 1700000000
             ETag := "\x22abc\x22", StorageClass := "STANDARD" },
       [.headObject "b" "k"]) := by
  have h := (get_file_info_spec exClient exSDK "b" "k" (by decide) (by decide)).2.2
    { ContentLength := some 13, LastModified := some 1700000000
      ETag := some "\x22abc\x22", StorageClass := some "STANDARD" } rfl
  simpa [int64Value, timeValue, stringValue] using h

/-- C5: For UploadFile, ListFiles and DeleteFile on validated inputs, a
delegated-SDK error with structured code NoSuchBucket maps to
ErrInvalidBucket, and every other SDK-reported failure is returned as a
wrapped error whose unwrap chain still contains the original cause
(`errors.Is` finds it) — never swallowed into a success. -/
theorem sdk_error_mapping (c : S3Client) (sdk : SDK) (bucket key pfx : String)
    (data : List Nat) (opts : Option UploadOptions)
    (hb : bucket ≠ "") (hk : key ≠ "") :
    (∀ msg, sdk.upload (buildUploadInput bucket key data opts) =
        .error (.aws ErrCodeNoSuchBucket msg) →
      (UploadFile c sdk bucket key data opts).1 = .error ErrInvalidBucket) ∧
    (∀ e, sdk.upload (buildUploadInput bucket key data opts) = .error e →
      (∀ msg, e ≠ .aws ErrCodeNoSuchBucket msg) →
      ∃ m, (UploadFile c sdk bucket key data opts).1 = .error (.wrap m e.toGoErr) ∧
        (GoErr.wrap m e.toGoErr).is e.toGoErr = true) ∧
    (∀ msg, sdk.listObjectsV2Pages
        { Bucket := bucket, Prefix := if pfx ≠ "" then some pfx else none } =
        .error (.aws ErrCodeNoSuchBucket msg) →
      (ListFiles c sdk bucket pfx).1 = .error ErrInvalidBucket) ∧
    (∀ e, sdk.listObjectsV2Pages
        { Bucket := bucket, Prefix := if pfx ≠ "" then some pfx else none } = .error e →
      (∀ msg, e ≠ .aws ErrCodeNoSuchBucket msg) →
      ∃ m, (ListFiles c sdk bucket pfx).1 = .error (.wrap m e.toGoErr) ∧
        (GoErr.wrap m e.toGoErr).is e.toGoErr = true) ∧
    (∀ msg, sdk.deleteObject bucket key = .error (.aws ErrCodeNoSuchBucket msg) →
      (DeleteFile c sdk bucket key).1 = .error ErrInvalidBucket) ∧
    (∀ e, sdk.deleteObject bucket key = .error e →
      (∀ msg, e ≠ .aws ErrCodeNoSuchBucket msg) →
      ∃ m, (DeleteFile c sdk bucket key).1 = .error (.wrap m e.toGoErr) ∧
        (GoErr.wrap m e.toGoErr).is e.toGoErr = true) := by
  refine ⟨?_, ?_, ?_, ?_, ?_, ?_⟩
  · intro msg h
    unfold UploadFile
    rw [if_neg hb, if_neg hk]
    simp only []
    rw [h]
    simp
  · intro e h hne
    unfold UploadFile
    rw [if_neg hb, if_neg hk]
    simp only []
    rw [h]
    match e with
    | .aws code msg =>
      have hcode : code ≠ ErrCodeNoSuchBucket := by
        intro hc
        exact hne msg (by rw [hc])
      exact ⟨"AWS error", by simp [hcode, SDKError.toGoErr], goErr_is_wrap _ _⟩
    | .plain msg =>
      exact ⟨"failed to upload file", by simp [SDKError.toGoErr], goErr_is_wrap _ _⟩
  · intro msg h
    unfold ListFiles
    rw [if_neg hb]
    simp only []
    rw [h]
    simp
  · intro e h hne
    unfold ListFiles
    rw [if_neg hb]
    simp only []
    rw [h]
    match e with
    | .aws code msg =>
      have hcode : code ≠ ErrCodeNoSuchBucket := by
        intro hc
        exact hne msg (by rw [hc])
      exact ⟨"AWS error", by simp [hcode, SDKError.toGoErr], goErr_is_wrap _ _⟩
    | .plain msg =>
      exact ⟨"failed to list objects", by simp [SDKError.toGoErr], goErr_is_wrap _ _⟩
  · intro msg h
    unfold DeleteFile
    rw [if_neg hb, if_neg hk, h]
    simp
  · intro e h hne
    unfold DeleteFile
    rw [if_neg hb, if_neg hk, h]
    match e with
    | .aws code msg =>
      have hcode : code ≠ ErrCodeNoSuchBucket := by
        intro hc
        exact hne msg (by rw [hc])
      exact ⟨"AWS error", by simp [hcode, SDKError.toGoErr], goErr_is_wrap _ _⟩
    | .plain msg =>
      exact ⟨"failed to delete file", by simp [SDKError.toGoErr], goErr_is_wrap _ _⟩

/-- C5 witness: an upload failing with the NoSuchBucket code yields
ErrInvalidBucket. -/
theorem sdk_error_mapping_witness :
    (UploadFile exClient
      { exSDK with upload := fun _ => .error (.aws ErrCodeNoSuchBucket "gone") }
      "b" "k" [] none).1 = .error ErrInvalidBucket :=
  (sdk_error_mapping exClient
    { exSDK with upload := fun _ => .error (.aws ErrCodeNoSuchBucket "gone") }
    "b" "k" "" [] none (by decide) (by decide)).1 "gone" rfl

/-- C8: With a non-empty bucket, when the paginated listing succeeds with a
sequence of pages, ListFiles returns the pages' objects concatenated in
service order, one FileInfo per object carrying its key, size,
last-modified time, entity tag and storage class; the single listing call
carries the prefix exactly when it is non-empty (an empty prefix sets no
filter field); and when the service only returns keys starting with the
non-empty prefix, every returned record's key starts with that prefix. -/
theorem list_files_pagination (c : S3Client) (sdk : SDK) (bucket pfx : String)
    (hb : bucket ≠ "") (pages : List (List S3Object))
    (hsvc : sdk.listObjectsV2Pages
      { Bucket := bucket, Prefix := if pfx ≠ "" then some pfx else none } = .ok pages) :
    ListFiles c sdk bucket pfx =
      (.ok (pages.flatten.map objectToFileInfo),
       [.listObjectsV2
         { Bucket := bucket, Prefix := if pfx ≠ "" then some pfx else none }]) ∧
    (∀ obj ∈ pages.flatten,
      objectToFileInfo obj =
        { Key := stringValue obj.Key, Size := int64Value obj.Size
          LastModified := timeValue obj.LastModified, ETag := stringValue obj.ETag
          StorageClass := stringValue obj.StorageClass }) ∧
    (pfx ≠ "" →
      (∀ obj ∈ pages.flatten, pfx.isPrefixOf (stringValue obj.Key) = true) →
      ∀ f ∈ pages.flatten.map objectToFileInfo, pfx.isPrefixOf f.Key = true) := by
  refine ⟨?_, ?_, ?_⟩
  · unfold ListFiles
    rw [if_neg hb]
    simp only []
    rw [hsvc]
  · intro obj _
    rfl
  · intro _ hkeys f hf
    rcases List.mem_map.1 hf with ⟨obj, hobj, rfl⟩
    exact hkeys obj hobj

/-- Sample listed objects for the C8 witness. -/
def exObjA : S3Object :=
  { Key := some "t/a.txt", Size := some 3, LastModified := some 11
    ETag := some "ea", StorageClass := some "STANDARD" }

/-- Second sample listed object for the C8 witness. -/
def exObjB : S3Object :=
  { Key := some "t/b.txt", Size := some 5, LastModified := some 12
    ETag := some "eb", StorageClass := some "GLACIER" }

/-- C8 witness: two pages of one object each come back concatenated in
order, with the prefix forwarded on the single listing call. -/
theorem list_files_pagination_witness :
    ListFiles exClient
      { exSDK with listObjectsV2Pages := fun _ => .ok [[exObjA], [exObjB]] }
      "b" "t/" =
      (.ok [objectToFileInfo exObjA, objectToFileInfo exObjB],
       [.listObjectsV2 { Bucket := "b", Prefix := some "t/" }]) := by
  have h := (list_files_pagination exClient
    { exSDK with listObjectsV2Pages := fun _ => .ok [[exObjA], [exObjB]] }
    "b" "t/" (by decide) [[exObjA], [exObjB]] rfl).1
  simpa using h

end S3Lib
